import Mathlib

/-!
Verification of the website-intelligence-engine analysis server.

The development shallow-embeds the server's pure logic (URL normalization,
technology/tracker detection, SEO scoring, accessibility checking) as
executable Lean functions, and models the effectful `/analyze` request
handler as a deterministic function over an environment of oracles that
decide the outcome of each suspension point (browser launch, page creation,
the three navigation attempts, screenshot, content retrieval, live-page
queries).  Page-context lifecycle is made observable through an event trace.
-/

namespace SiteScanner

/-! ## String-as-char-list helpers

JavaScript string primitives used by the source (`String.prototype.includes`,
`toLowerCase`, `Array.prototype.join`) are modelled over `List Char`. -/

/-- Boolean test that the pattern list `p` starts the list `s`
(models a match of `p` at the current position). -/
def leadsWith : List Char → List Char → Bool
  | [], _ => true
  | _ :: _, [] => false
  | a :: as, b :: bs => a == b && leadsWith as bs

/-- Boolean test that `p` occurs contiguously somewhere in `s`;
models JavaScript `s.includes(p)` on the underlying character lists. -/
def hasSeg (p : List Char) : List Char → Bool
  | [] => p.isEmpty
  | c :: rest => leadsWith p (c :: rest) || hasSeg p rest

/-- String-level substring test, models JavaScript `s.includes(p)`. -/
def substrOf (p s : String) : Bool := hasSeg p.data s.data

/-- Boolean test that string `s` begins with string `p`;
models "the returned string begins with ...". -/
def beginsWith (p s : String) : Bool := leadsWith p.data s.data

/-- Character-wise lower-casing, models JavaScript `s.toLowerCase()` for the
ASCII signature strings the detectors use. -/
def lowerStr (s : String) : String := ⟨s.data.map Char.toLower⟩

/-- Models JavaScript `array.join(" ")`. -/
def joinSp : List String → String
  | [] => ""
  | [s] => s
  | s :: t :: rest => s ++ " " ++ joinSp (t :: rest)

/-- One step of JavaScript `Set` insertion (keeps the first occurrence). -/
def dedupStep (acc : List String) (x : String) : List String :=
  if x ∈ acc then acc else acc ++ [x]

/-- Models `[...new Set(l)]`: deduplication keeping first-insertion order. -/
def setDedup (l : List String) : List String := l.foldl dedupStep []

/-! ## URL Normalizer

`normalizeUrl` (part_000 lines 47-55) calls the WHATWG `URL` class:
`new URL(input)` parses, `parsed.protocol = "https:"` attempts to force the
scheme, and `parsed.href` re-serializes; a parse failure falls back to
`"https://" + input`.  The platform `URL` class is modelled below to the
depth the behaviour requires: a URL parses when the input starts with a
syntactically valid scheme followed by a colon; `http`, `https`, `ws`,
`wss` and `ftp` URLs are held in authority form (leading slashes after the
colon are absorbed, an empty authority is a parse error); the WHATWG
protocol setter silently ignores an assignment that would switch a URL
between the special and the non-special scheme families, and likewise
leaves `file` URLs (whose host is empty in the common case) unchanged. -/

/-- Parsed URL model: `authorityForm` marks the special network schemes that
serialize as `scheme://rest`; every other scheme serializes as
`scheme:rest` with the tail kept verbatim. -/
structure URLRecord where
  scheme : String
  rest : String
  authorityForm : Bool
deriving DecidableEq, Repr

/-- Valid non-first characters of a URL scheme. -/
def schemeOkChar (c : Char) : Bool := c.isAlphanum || c == '+' || c == '-' || c == '.'

/-- Splits a candidate scheme from the remainder at the first colon. -/
def takeScheme : List Char → Option (List Char × List Char)
  | [] => none
  | c :: rest =>
    if c = ':' then some ([], rest)
    else
      match takeScheme rest with
      | some (sch, tail) => some (c :: sch, tail)
      | none => none

/-- The WHATWG special schemes that can exchange protocols with `https`. -/
def authoritySchemes : List String := ["http", "https", "ws", "wss", "ftp"]

/-- Models `new URL(input)`: `some` on parse success, `none` when the
constructor would throw. -/
def parseURL (input : String) : Option URLRecord :=
  match takeScheme input.data with
  | none => none
  | some (sch, tail) =>
    match sch with
    | [] => none
    | c :: cs =>
      if c.isAlpha && cs.all schemeOkChar then
        let scheme := lowerStr ⟨sch⟩
        if scheme ∈ authoritySchemes then
          let hostpath := tail.dropWhile (fun ch => ch = '/')
          if hostpath.isEmpty then none
          else some ⟨scheme, ⟨hostpath⟩, true⟩
        else some ⟨scheme, ⟨tail⟩, false⟩
      else none

/-- Models the WHATWG protocol setter `parsed.protocol = "https:"`: the
assignment takes effect only on the special network schemes; on every
other scheme (including `mailto:`, `data:`, `javascript:` and the
empty-host `file:` case) it is silently ignored. -/
def setProtocolHttps (u : URLRecord) : URLRecord :=
  if u.authorityForm then ⟨"https", u.rest, true⟩ else u

/-- Models `parsed.href` re-serialization. -/
def urlHref (u : URLRecord) : String :=
  if u.authorityForm then u.scheme ++ "://" ++ u.rest else u.scheme ++ ":" ++ u.rest

/-- Mirrors `normalizeUrl` (part_000 lines 47-55). -/
def normalizeUrl (input : String) : String :=
  match parseURL input with
  | some parsed => urlHref (setProtocolHttps parsed)
  | none => "https://" ++ input

/-! ## Technology Detector

`detectTechStack` (part_000 lines 60-101) takes two live-page query results
— the `generator` meta tag content (swallowed to `null` on failure) and the
list of script `src` URLs — plus the serialized document text.  The page
handle itself is abstracted into those two query results. -/

/-- Mirrors `detectTechStack` (part_000 lines 60-101): the generator tag is
pushed when truthy, a fixed substring-signature table is tested against the
lower-cased space-joined script URLs and against the lower-cased document
text, and the accumulated names are deduplicated via `[...new Set(tech)]`. -/
def detectTechStack (generator : Option String) (scripts : List String)
    (html : String) : List String :=
  let lower := lowerStr html
  let scriptString := lowerStr (joinSp scripts)
  setDedup (
    (match generator with
     | some g => if g.isEmpty then [] else [g]
     | none => [])
    ++ (if substrOf "react" scriptString then ["React"] else [])
    ++ (if substrOf "vue" scriptString then ["Vue"] else [])
    ++ (if substrOf "angular" scriptString then ["Angular"] else [])
    ++ (if substrOf "_next" scriptString then ["Next.js"] else [])
    ++ (if substrOf "nuxt" scriptString then ["Nuxt.js"] else [])
    ++ (if substrOf "svelte" scriptString then ["Svelte"] else [])
    ++ (if substrOf "bootstrap" scriptString then ["Bootstrap"] else [])
    ++ (if substrOf "tailwind" scriptString then ["Tailwind CSS"] else [])
    ++ (if substrOf "wp-content" scriptString then ["WordPress"] else [])
    ++ (if substrOf "woocommerce" scriptString then ["WooCommerce"] else [])
    ++ (if substrOf "shopify" scriptString then ["Shopify"] else [])
    ++ (if substrOf "squarespace" scriptString then ["Squarespace"] else [])
    ++ (if substrOf "wix" scriptString then ["Wix"] else [])
    ++ (if substrOf "id=\"root\"" lower then ["React (likely)"] else [])
    ++ (if substrOf "id=\"__next\"" lower then ["Next.js"] else [])
    ++ (if substrOf "id=\"__nuxt\"" lower then ["Nuxt.js"] else []))

/-- Mirrors `detectTrackers` (part_000 lines 107-131). -/
def detectTrackers (html : String) : List String :=
  let lower := lowerStr html
  (if substrOf "googletagmanager" lower then ["Google Tag Manager"] else [])
  ++ (if substrOf "google-analytics" lower || substrOf "ga.js" lower then
        ["Google Analytics"] else [])
  ++ (if substrOf "fbq(" lower || substrOf "facebook" lower then
        ["Facebook Pixel"] else [])
  ++ (if substrOf "tiktok" lower then ["TikTok Pixel"] else [])
  ++ (if substrOf "hotjar" lower then ["Hotjar"] else [])
  ++ (if substrOf "clarity.ms" lower then ["Microsoft Clarity"] else [])
  ++ (if substrOf "segment.com" lower then ["Segment"] else [])
  ++ (if substrOf "mixpanel" lower then ["Mixpanel"] else [])
  ++ (if substrOf "intercom" lower then ["Intercom"] else [])

/-! ## SEO signals and scoring engine

`analyzeSEO` and `extractLayout` (part_000 lines 136-215) read a parsed
cheerio document; their outputs are modelled as the records below (cheerio
itself is abstracted: the records are the scoring engine's inputs).  Fields
that cheerio coerces with `|| null` are `Option String`. -/

structure OpenGraph where
  title : Option String
  description : Option String
  image : Option String
deriving DecidableEq, Repr

structure SEOSignal where
  title : Option String
  titleLength : Nat
  metaDescription : Option String
  metaDescriptionLength : Nat
  h1Count : Nat
  h1Text : Option String
  imagesWithoutAlt : Nat
  canonical : Option String
  openGraph : OpenGraph
deriving DecidableEq, Repr

structure LayoutSignal where
  hasHeader : Bool
  hasNav : Bool
  hasFooter : Bool
  hasHero : Bool
  hasMain : Bool
  sectionCount : Nat
  articleCount : Nat
  formCount : Nat
  buttonCount : Nat
  imageCount : Nat
  linkCount : Nat
  bodyTextLength : Nat
deriving DecidableEq, Repr

structure ScoreResult where
  score : Int
  issues : List String
deriving DecidableEq, Repr

/-- One `if (cond) { score -= amt; issues.push(msg); }` block of
`calculateSEOScore`. -/
def dedStep (cond : Bool) (amt : Int) (msg : String) (st : Int × List String) :
    Int × List String :=
  if cond then (st.1 - amt, st.2 ++ [msg]) else st

/-- One `if / else if` deduction block of `calculateSEOScore`. -/
def dedStep2 (c1 : Bool) (a1 : Int) (m1 : String) (c2 : Bool) (a2 : Int)
    (m2 : String) (st : Int × List String) : Int × List String :=
  if c1 then (st.1 - a1, st.2 ++ [m1])
  else if c2 then (st.1 - a2, st.2 ++ [m2])
  else st

/-- Mirrors `calculateSEOScore` (part_000 lines 217-274): score starts at
100, the nine deduction blocks run in source order, and the result is
clamped from below with `Math.max(score, 0)`. -/
def calculateSEOScore (seo : SEOSignal) (layout : LayoutSignal) : ScoreResult :=
  let st : Int × List String := (100, [])
  let st := dedStep2 seo.title.isNone 20 "Missing page title"
    (seo.titleLength > 60) 5 "Title too long (>60 chars)" st
  let st := dedStep2 seo.metaDescription.isNone 15 "Missing meta description"
    (seo.metaDescriptionLength > 160) 5 "Meta description too long (>160 chars)" st
  let st := dedStep (seo.h1Count == 0) 20 "No H1 heading found" st
  let st := dedStep (seo.h1Count > 1) 10 "Multiple H1 headings" st
  let st := dedStep (seo.imagesWithoutAlt > 0)
    (min 10 ((seo.imagesWithoutAlt : Int) * 2))
    (toString seo.imagesWithoutAlt ++ " images without alt text") st
  let st := dedStep (!layout.hasHeader) 5 "No header element" st
  let st := dedStep (!layout.hasFooter) 5 "No footer element" st
  let st := dedStep seo.canonical.isNone 5 "No canonical URL" st
  let st := dedStep (seo.openGraph.title.isNone && seo.openGraph.description.isNone)
    10 "Missing Open Graph tags" st
  ⟨max st.1 0, st.2⟩

/-- Deduction table entry produced by one simple deduction block. -/
def dedChecks (cond : Bool) (amt : Int) (msg : String) : List (Int × String) :=
  if cond then [(amt, msg)] else []

/-- Deduction table entries produced by one `if / else if` block. -/
def dedChecks2 (c1 : Bool) (a1 : Int) (m1 : String) (c2 : Bool) (a2 : Int)
    (m2 : String) : List (Int × String) :=
  if c1 then [(a1, m1)] else if c2 then [(a2, m2)] else []

/-- The deductions `calculateSEOScore` applies, in source check order, each
paired with the issue message it pushes. -/
def seoChecks (seo : SEOSignal) (layout : LayoutSignal) : List (Int × String) :=
  dedChecks2 seo.title.isNone 20 "Missing page title"
    (seo.titleLength > 60) 5 "Title too long (>60 chars)"
  ++ dedChecks2 seo.metaDescription.isNone 15 "Missing meta description"
    (seo.metaDescriptionLength > 160) 5 "Meta description too long (>160 chars)"
  ++ dedChecks (seo.h1Count == 0) 20 "No H1 heading found"
  ++ dedChecks (seo.h1Count > 1) 10 "Multiple H1 headings"
  ++ dedChecks (seo.imagesWithoutAlt > 0)
    (min 10 ((seo.imagesWithoutAlt : Int) * 2))
    (toString seo.imagesWithoutAlt ++ " images without alt text")
  ++ dedChecks (!layout.hasHeader) 5 "No header element"
  ++ dedChecks (!layout.hasFooter) 5 "No footer element"
  ++ dedChecks seo.canonical.isNone 5 "No canonical URL"
  ++ dedChecks (seo.openGraph.title.isNone && seo.openGraph.description.isNone)
    10 "Missing Open Graph tags"

/-! ## Accessibility Checker

`checkAccessibility` (part_000 lines 295-320) reads the parsed document,
abstracted as the record below: the root element's `lang` attribute, the
count of `img:not([alt])` elements, the count of `a:not([href])` elements,
and the ordered h1-h6 heading-level sequence built from `tagName[1]`. -/

structure DocModel where
  htmlLang : Option String
  imgWithoutAlt : Nat
  linksWithoutHref : Nat
  headingLevels : List Nat
deriving DecidableEq, Repr

/-- JavaScript truthiness of `!$('html').attr('lang')`: a missing attribute
or an empty string counts as absent. -/
def langMissing : Option String → Bool
  | none => true
  | some s => s.isEmpty

/-- Mirrors the skipped-heading loop (part_000 lines 310-316): scan
consecutive heading-level pairs and stop at the first pair whose difference
(computed over the integers) exceeds one. -/
def hasSkippedHeading : List Nat → Bool
  | [] => false
  | [_] => false
  | a :: b :: rest =>
    decide ((b : Int) - (a : Int) > 1) || hasSkippedHeading (b :: rest)

/-- Mirrors `checkAccessibility` (part_000 lines 295-320): the four checks
push their issue strings in source order. -/
def checkAccessibility (doc : DocModel) : List String :=
  let issues : List String := []
  let issues := if langMissing doc.htmlLang then
    issues ++ ["Missing lang attribute on <html>"] else issues
  let issues := if doc.imgWithoutAlt > 0 then
    issues ++ [toString doc.imgWithoutAlt ++ " images missing alt text"] else issues
  let issues := if doc.linksWithoutHref > 0 then
    issues ++ ["Links without href attribute"] else issues
  let issues := if hasSkippedHeading doc.headingLevels then
    issues ++ ["Skipped heading levels detected"] else issues
  issues

/-! ## Navigation Strategy Engine

The `/analyze` handler (part_000 lines 386-424) drives `page.goto` through
three `waitUntil` strategies in nested try/catch order: `networkidle2`,
then `domcontentloaded`, then `load`.  Whether a given strategy completes
within its (mode-dependent, per-strategy) timeout is an environmental fact
about the target site, modelled as one Boolean oracle per strategy. -/

inductive Strategy where
  | networkIdle
  | domContentLoaded
  | load
deriving DecidableEq, Repr

/-- Navigation oracle: for each strategy, whether `page.goto` with that
`waitUntil` condition would succeed within its timeout. -/
structure NavEnv where
  networkIdleOk : Bool
  domContentLoadedOk : Bool
  loadOk : Bool
deriving DecidableEq, Repr

/-- Outcome of attempting one strategy. -/
def tryGoto (nav : NavEnv) : Strategy → Bool
  | .networkIdle => nav.networkIdleOk
  | .domContentLoaded => nav.domContentLoadedOk
  | .load => nav.loadOk

/-- Mirrors the nested try/catch cascade (part_000 lines 386-424).  Returns
the strategy that completed (the `NavigationOutcome`'s `strategyUsed`;
`none` when all three failed) together with the ordered attempt log. -/
def navigate (nav : NavEnv) : Option Strategy × List (Strategy × Bool) :=
  if tryGoto nav .networkIdle then
    (some .networkIdle, [(.networkIdle, true)])
  else if tryGoto nav .domContentLoaded then
    (some .domContentLoaded, [(.networkIdle, false), (.domContentLoaded, true)])
  else if tryGoto nav .load then
    (some .load,
      [(.networkIdle, false), (.domContentLoaded, false), (.load, true)])
  else
    (none, [(.networkIdle, false), (.domContentLoaded, false), (.load, false)])

/-! ## The `/analyze` pipeline

`app.post("/analyze")` (part_000 lines 359-506) is modelled as a
deterministic function over an oracle environment.  Each `await` that can
reject is an `Option String` field (`none` = success, `some msg` = the step
rejects with an error whose message is `msg`); `page.close()` is modelled
as always succeeding.  The cheerio snapshot is abstracted as the already
extracted signal records; the screenshot bytes, performance metrics,
security findings and timing metadata do not influence control flow or any
claim and are omitted from the report model.  Page-context lifecycle is
observable in the returned event trace. -/

/-- Page-context lifecycle events of one request. -/
inductive Ev where
  | created
  | closed
deriving DecidableEq, Repr

/-- The categorized error payload of a 500 response
(`errorType` / `message` / `technicalDetails`). -/
structure ErrResp where
  errorType : String
  message : String
  technicalDetails : String
deriving DecidableEq, Repr

/-- The report value assembled on the success path (restricted to the
modelled signal extractors). -/
structure Report where
  url : String
  techStack : List String
  trackers : List String
  layout : LayoutSignal
  seoScore : Int
  seoIssues : List String
  accessibility : List String
deriving DecidableEq, Repr

/-- HTTP outcome of one `/analyze` request. -/
inductive Resp where
  | badRequest (error : String)
  | ok (report : Report)
  | serverError (e : ErrResp)
deriving DecidableEq, Repr

/-- Mirrors the catch block (part_000 lines 477-505): the error message is
classified into an error type and a user message; `technicalDetails` is
`error.stack || error.message`, and a V8 stack string embeds the message,
so it is modelled by the message itself. -/
def classifyError (msg : String) : ErrResp :=
  if substrOf "Navigation timeout" msg || substrOf "timeout" msg then
    ⟨"Timeout Error",
     "The website took too long to respond. This could be due to: slow server response, heavy page content, or network issues. Try again or test a different URL.",
     msg⟩
  else if substrOf "net::ERR_NAME_NOT_RESOLVED" msg then
    ⟨"DNS Error", "Could not resolve the domain name. Please check the URL and try again.", msg⟩
  else if substrOf "net::ERR_CONNECTION_REFUSED" msg then
    ⟨"Connection Refused", "The server refused the connection. The website might be down or blocking requests.", msg⟩
  else if substrOf "net::ERR_CERT" msg then
    ⟨"SSL Certificate Error", "SSL certificate issue detected. The website may have an invalid or expired certificate.", msg⟩
  else ⟨"Failed to analyze website", msg, msg⟩

/-- The message of the error thrown when all three navigation strategies
fail (part_000 line 421); it carries the attempted normalized URL. -/
def navFailMessage (url : String) : String :=
  "Unable to load " ++ url
    ++ ". The site may be blocking automated access, experiencing issues, or taking too long to respond."

/-- Environment of one `/analyze` request: the outcome of every fallible
awaited step, plus the signal values the (abstracted) snapshot yields. -/
structure AnalyzeEnv where
  initBrowserErr : Option String
  newPageErr : Option String
  setUserAgentErr : Option String
  nav : NavEnv
  screenshotErr : Option String
  contentErr : Option String
  html : String
  doc : DocModel
  seo : SEOSignal
  layout : LayoutSignal
  generator : Option String
  scriptsErr : Option String
  scripts : List String
  perfErr : Option String

/-- Mirrors `app.post("/analyze")` (part_000 lines 359-506).  The returned
trace records page-context creation and closure in execution order; the
quick-mode flag only rescales the timeouts already absorbed into the
navigation oracle.  Steps fail in source order: `initBrowser`, the missing
URL check, `browser.newPage`, `page.setUserAgent`, the navigation cascade,
`page.screenshot`, `page.content`, the script-URL query inside
`detectTechStack`, and the performance query; the first failure jumps to
the catch block, which closes the page when one was created. -/
def analyzeHandler (env : AnalyzeEnv) (targetUrl : Option String) :
    Resp × List Ev :=
  match env.initBrowserErr with
  | some msg => (.serverError (classifyError msg), [])
  | none =>
    match targetUrl with
    | none => (.badRequest "URL required", [])
    | some rawUrl =>
      let url := normalizeUrl rawUrl
      match env.newPageErr with
      | some msg => (.serverError (classifyError msg), [])
      | none =>
        match env.setUserAgentErr with
        | some msg => (.serverError (classifyError msg), [.created, .closed])
        | none =>
          match (navigate env.nav).1 with
          | none =>
            (.serverError (classifyError (navFailMessage url)), [.created, .closed])
          | some _ =>
            match env.screenshotErr with
            | some msg => (.serverError (classifyError msg), [.created, .closed])
            | none =>
              match env.contentErr with
              | some msg => (.serverError (classifyError msg), [.created, .closed])
              | none =>
                match env.scriptsErr with
                | some msg => (.serverError (classifyError msg), [.created, .closed])
                | none =>
                  match env.perfErr with
                  | some msg => (.serverError (classifyError msg), [.created, .closed])
                  | none =>
                    let seoResult := calculateSEOScore env.seo env.layout
                    (.ok ⟨url,
                          detectTechStack env.generator env.scripts env.html,
                          detectTrackers env.html,
                          env.layout,
                          seoResult.score,
                          seoResult.issues,
                          checkAccessibility env.doc⟩,
                     [.created, .closed])

/-- Document model with no content, used to instantiate sample environments. -/
def emptyDoc : DocModel := ⟨none, 0, 0, []⟩

/-- SEO signal with every field absent or zero. -/
def emptySEO : SEOSignal := ⟨none, 0, none, 0, 0, none, 0, none, ⟨none, none, none⟩⟩

/-- Layout signal with every flag false and every count zero. -/
def emptyLayout : LayoutSignal := ⟨false, false, false, false, false, 0, 0, 0, 0, 0, 0, 0⟩

/-- Sample request environment in which every pre-navigation step succeeds
and all three navigation strategies fail. -/
def navAllFailEnv : AnalyzeEnv :=
  ⟨none, none, none, ⟨false, false, false⟩, none, none, "", emptyDoc, emptySEO,
   emptyLayout, none, none, [], none⟩

theorem strData_append (s t : String) : (s ++ t).data = s.data ++ t.data := by
  cases s; cases t; rfl

theorem leadsWith_iff (p : List Char) :
    ∀ s, leadsWith p s = true ↔ ∃ r, s = p ++ r := by
  induction p with
  | nil => intro s; simp [leadsWith]
  | cons a as ih =>
    intro s
    cases s with
    | nil => simp [leadsWith]
    | cons b bs =>
      simp only [leadsWith, Bool.and_eq_true, beq_iff_eq, ih bs]
      constructor
      · rintro ⟨hab, r, rfl⟩; exact ⟨r, by rw [hab]; rfl⟩
      · rintro ⟨r, h⟩
        rw [List.cons_append] at h
        injection h with h1 h2
        exact ⟨h1.symm, r, h2⟩

theorem hasSeg_iff (p : List Char) :
    ∀ s, hasSeg p s = true ↔ ∃ l r, s = l ++ p ++ r := by
  intro s
  induction s with
  | nil =>
    simp only [hasSeg, List.isEmpty_iff]
    constructor
    · rintro rfl; exact ⟨[], [], rfl⟩
    · rintro ⟨l, r, h⟩
      rcases List.append_eq_nil.mp h.symm with ⟨h1, h2⟩
      exact (List.append_eq_nil.mp h1).2
  | cons c rest ih =>
    simp only [hasSeg, Bool.or_eq_true, leadsWith_iff, ih]
    constructor
    · rintro (⟨r, h⟩ | ⟨l, r, h⟩)
      · exact ⟨[], r, by simpa using h⟩
      · exact ⟨c :: l, r, by simp [h]⟩
    · rintro ⟨l, r, h⟩
      cases l with
      | nil => exact Or.inl ⟨r, by simpa using h⟩
      | cons x xs =>
        right
        rw [List.cons_append, List.cons_append] at h
        injection h with h1 h2
        exact ⟨xs, r, by simpa using h2⟩

theorem mem_foldl_dedup (l : List String) :
    ∀ acc x, x ∈ l.foldl dedupStep acc ↔ x ∈ acc ∨ x ∈ l := by
  induction l with
  | nil => intro acc x; simp
  | cons y t ih =>
    intro acc x
    simp only [List.foldl_cons, ih, dedupStep]
    by_cases hy : y ∈ acc
    · simp only [if_pos hy, List.mem_cons]
      constructor
      · rintro (h | h)
        · exact Or.inl h
        · exact Or.inr (Or.inr h)
      · rintro (h | rfl | h)
        · exact Or.inl h
        · exact Or.inl hy
        · exact Or.inr h
    · simp only [if_neg hy, List.mem_append, List.mem_singleton, List.mem_cons]
      tauto

theorem mem_setDedup (l : List String) (x : String) : x ∈ setDedup l ↔ x ∈ l := by
  unfold setDedup
  rw [mem_foldl_dedup]
  simp

theorem nodup_foldl_dedup (l : List String) :
    ∀ acc : List String, acc.Nodup → (l.foldl dedupStep acc).Nodup := by
  induction l with
  | nil => intro acc h; simpa using h
  | cons y t ih =>
    intro acc h
    simp only [List.foldl_cons]
    apply ih
    unfold dedupStep
    by_cases hy : y ∈ acc
    · simpa [hy] using h
    · simp [hy, List.nodup_append, h]

theorem setDedup_nodup (l : List String) : (setDedup l).Nodup :=
  nodup_foldl_dedup l [] List.nodup_nil

theorem joinSp_decomp (s : String) :
    ∀ xs : List String, s ∈ xs → ∃ a b, (joinSp xs).data = a ++ s.data ++ b := by
  intro xs
  induction xs with
  | nil => intro h; cases h
  | cons y t ih =>
    intro hmem
    cases t with
    | nil =>
      rcases List.mem_singleton.mp hmem with rfl
      exact ⟨[], [], by simp [joinSp]⟩
    | cons z u =>
      rcases List.mem_cons.mp hmem with rfl | hs
      · refine ⟨[], (" " ++ joinSp (z :: u)).data, ?_⟩
        simp [joinSp, strData_append]
      · rcases ih hs with ⟨a, b, hab⟩
        refine ⟨(y ++ " ").data ++ a, b, ?_⟩
        simp [joinSp, strData_append, hab]

/-- If one script URL contains the literal segment `"_next/static/"`, then
the lower-cased space-joined script string contains `"_next"`. -/
theorem scriptString_next_seg (scripts : List String) (s : String)
    (hs : s ∈ scripts) (h : substrOf "_next/static/" s = true) :
    substrOf "_next" (lowerStr (joinSp scripts)) = true := by
  unfold substrOf at h ⊢
  rw [hasSeg_iff] at h ⊢
  rcases h with ⟨l, r, hlr⟩
  rcases joinSp_decomp s scripts hs with ⟨a, b, hab⟩
  refine ⟨(a ++ l).map Char.toLower,
    ("/static/".data ++ r).map Char.toLower ++ b.map Char.toLower, ?_⟩
  have hdata : (lowerStr (joinSp scripts)).data
      = ((a ++ (l ++ "_next/static/".data ++ r)) ++ b).map Char.toLower := by
    simp only [lowerStr]
    rw [hab, hlr]
  have hfix : "_next".data.map Char.toLower = "_next".data := by decide
  have hsplit : "_next/static/".data = "_next".data ++ "/static/".data := by decide
  rw [hdata, hsplit]
  simp only [List.map_append, hfix]
  simp [List.append_assoc]

theorem dedStep_spec (cond : Bool) (amt : Int) (msg : String)
    (st : Int × List String) :
    dedStep cond amt msg st
      = (st.1 - (((dedChecks cond amt msg).map Prod.fst).sum),
         st.2 ++ (dedChecks cond amt msg).map Prod.snd) := by
  cases cond <;> simp [dedStep, dedChecks]

theorem dedStep2_spec (c1 : Bool) (a1 : Int) (m1 : String) (c2 : Bool)
    (a2 : Int) (m2 : String) (st : Int × List String) :
    dedStep2 c1 a1 m1 c2 a2 m2 st
      = (st.1 - (((dedChecks2 c1 a1 m1 c2 a2 m2).map Prod.fst).sum),
         st.2 ++ (dedChecks2 c1 a1 m1 c2 a2 m2).map Prod.snd) := by
  cases c1 <;> cases c2 <;> simp [dedStep2, dedChecks2]

/-- The scoring engine equals the clamp of `100` minus the deduction table's
total, paired with the table's messages in order. -/
theorem calculateSEOScore_eq (seo : SEOSignal) (layout : LayoutSignal) :
    calculateSEOScore seo layout
      = ⟨max (100 - ((seoChecks seo layout).map Prod.fst).sum) 0,
         (seoChecks seo layout).map Prod.snd⟩ := by
  unfold calculateSEOScore seoChecks
  simp only [dedStep_spec, dedStep2_spec, List.map_append, List.sum_append,
    List.append_assoc, ScoreResult.mk.injEq]
  constructor
  · omega
  · simp

theorem mem_dedChecks (c : Bool) (a : Int) (m : String) (p : Int × String)
    (hp : p ∈ dedChecks c a m) : c = true ∧ p.1 = a := by
  unfold dedChecks at hp
  split at hp <;> simp_all

theorem mem_dedChecks2 (c1 : Bool) (a1 : Int) (m1 : String) (c2 : Bool)
    (a2 : Int) (m2 : String) (p : Int × String)
    (hp : p ∈ dedChecks2 c1 a1 m1 c2 a2 m2) : p.1 = a1 ∨ p.1 = a2 := by
  unfold dedChecks2 at hp
  split at hp
  · simp_all
  · split at hp <;> simp_all

theorem seoChecks_pos (seo : SEOSignal) (layout : LayoutSignal) :
    ∀ p ∈ seoChecks seo layout, 0 < p.1 := by
  intro p hp
  unfold seoChecks at hp
  simp only [List.mem_append] at hp
  rcases hp with ((((((((h | h) | h) | h) | h) | h) | h) | h) | h)
  · rcases mem_dedChecks2 _ _ _ _ _ _ _ h with h1 | h1 <;> omega
  · rcases mem_dedChecks2 _ _ _ _ _ _ _ h with h1 | h1 <;> omega
  · rcases mem_dedChecks _ _ _ _ h with ⟨-, h1⟩; omega
  · rcases mem_dedChecks _ _ _ _ h with ⟨-, h1⟩; omega
  · rcases mem_dedChecks _ _ _ _ h with ⟨hc, h1⟩
    have hiwa : 0 < seo.imagesWithoutAlt := by simpa using hc
    have : (1 : Int) ≤ (seo.imagesWithoutAlt : Int) := by exact_mod_cast hiwa
    omega
  · rcases mem_dedChecks _ _ _ _ h with ⟨-, h1⟩; omega
  · rcases mem_dedChecks _ _ _ _ h with ⟨-, h1⟩; omega
  · rcases mem_dedChecks _ _ _ _ h with ⟨-, h1⟩; omega
  · rcases mem_dedChecks _ _ _ _ h with ⟨-, h1⟩; omega

theorem sum_fst_nonneg (l : List (Int × String)) (h : ∀ p ∈ l, 0 < p.1) :
    0 ≤ (l.map Prod.fst).sum := by
  induction l with
  | nil => simp
  | cons p t ih =>
    have hp := h p (List.mem_cons_self p t)
    have ht : ∀ q ∈ t, 0 < q.1 := fun q hq => h q (List.mem_cons_of_mem p hq)
    simp only [List.map_cons, List.sum_cons]
    have := ih ht
    omega

theorem sum_pos_list_eq_nil (l : List (Int × String))
    (hpos : ∀ p ∈ l, 0 < p.1) :
    ((l.map Prod.fst).sum = 0 ↔ l = []) := by
  cases l with
  | nil => simp
  | cons p t =>
    have hp := hpos p (List.mem_cons_self p t)
    have ht : ∀ q ∈ t, 0 < q.1 := fun q hq => hpos q (List.mem_cons_of_mem p hq)
    have hsum := sum_fst_nonneg t ht
    simp only [List.map_cons, List.sum_cons]
    constructor
    · intro h; exfalso; omega
    · intro h; cases h

/-- The skipped-heading scan fires exactly when some consecutive pair of
heading levels increases by more than one. -/
theorem hasSkippedHeading_iff (l : List Nat) :
    hasSkippedHeading l = true
      ↔ ∃ l1 a b l2, l = l1 ++ a :: b :: l2 ∧ a + 1 < b := by
  induction l with
  | nil =>
    simp only [hasSkippedHeading]
    constructor
    · intro h; cases h
    · rintro ⟨l1, a, b, l2, h, -⟩
      exact absurd h.symm (by simp)
  | cons x t ih =>
    cases t with
    | nil =>
      simp only [hasSkippedHeading]
      constructor
      · intro h; cases h
      · rintro ⟨l1, a, b, l2, h, -⟩
        cases l1 with
        | nil => simp at h
        | cons y ys => simp at h
    | cons y u =>
      simp only [hasSkippedHeading, Bool.or_eq_true, decide_eq_true_eq, ih]
      constructor
      · rintro (h | ⟨l1, a, b, l2, hdec, hlt⟩)
        · exact ⟨[], x, y, u, rfl, by omega⟩
        · exact ⟨x :: l1, a, b, l2, by simp [hdec], hlt⟩
      · rintro ⟨l1, a, b, l2, hdec, hlt⟩
        cases l1 with
        | nil =>
          simp only [List.nil_append] at hdec
          injection hdec with h1 h2
          injection h2 with h3 h4
          subst h1; subst h3; subst h4
          exact Or.inl (by omega)
        | cons z zs =>
          simp only [List.cons_append] at hdec
          injection hdec with h1 h2
          exact Or.inr ⟨zs, a, b, l2, h2, hlt⟩

/-- The accessibility issue list equals the concatenation of the four
optional singleton segments, in check order. -/
theorem checkAccessibility_eq (doc : DocModel) :
    checkAccessibility doc
      = (if langMissing doc.htmlLang then ["Missing lang attribute on <html>"] else [])
        ++ (if doc.imgWithoutAlt > 0 then
              [toString doc.imgWithoutAlt ++ " images missing alt text"] else [])
        ++ (if doc.linksWithoutHref > 0 then ["Links without href attribute"] else [])
        ++ (if hasSkippedHeading doc.headingLevels then
              ["Skipped heading levels detected"] else []) := by
  unfold checkAccessibility
  split <;> split <;> split <;> split <;> simp

/-- The aggregated image-alt message never coincides with a string that does
not end in the letter `t`. -/
theorem imgMsg_ne (n : Nat) (m : String) (hm : m.data.getLast? ≠ some 't') :
    ¬ (toString n ++ " images missing alt text" = m) := by
  intro he
  apply hm
  rw [← he, strData_append]
  rw [List.getLast?_append_of_ne_nil _ (by decide)]
  decide

/-! ## Claim theorems -/

/-- C1: for every execution of the analyze pipeline, either no page context
is created (pre-page failure or missing URL) or exactly one page context is
created and it is closed before the pipeline returns, on the success path
and on every failure path alike. -/
theorem analyzeHandler_page_lifecycle (env : AnalyzeEnv) (targetUrl : Option String) :
    (analyzeHandler env targetUrl).2 = []
      ∨ (analyzeHandler env targetUrl).2 = [Ev.created, Ev.closed] := by
  unfold analyzeHandler
  repeat' split
  all_goals simp

/-- C2: when the NetworkIdle and DomContentLoaded strategies fail within
their timeouts and the Load strategy succeeds, the navigation engine
attempts the strategies in the fixed order NetworkIdle, DomContentLoaded,
Load, terminates successfully at the first success, and the outcome records
`strategyUsed = Load`. -/
theorem navigate_fallback_to_load (nav : NavEnv)
    (h1 : nav.networkIdleOk = false) (h2 : nav.domContentLoadedOk = false)
    (h3 : nav.loadOk = true) :
    navigate nav
      = (some Strategy.load,
         [(Strategy.networkIdle, false), (Strategy.domContentLoaded, false),
          (Strategy.load, true)]) := by
  simp [navigate, tryGoto, h1, h2, h3]

/-- Witness for C2 at a concrete navigation environment. -/
theorem navigate_fallback_to_load_witness :
    navigate ⟨false, false, true⟩
      = (some Strategy.load,
         [(Strategy.networkIdle, false), (Strategy.domContentLoaded, false),
          (Strategy.load, true)]) :=
  navigate_fallback_to_load ⟨false, false, true⟩ rfl rfl rfl

/-- C3: when all three navigation strategies fail within their timeouts,
the pipeline answers with a navigation-failure error whose technical detail
carries the attempted normalized URL as a substring, and the page context
created for the request has been closed — no page context remains open. -/
theorem analyzeHandler_navigation_failed (env : AnalyzeEnv) (rawUrl : String)
    (h1 : env.initBrowserErr = none) (h2 : env.newPageErr = none)
    (h3 : env.setUserAgentErr = none) (h4 : env.nav.networkIdleOk = false)
    (h5 : env.nav.domContentLoadedOk = false) (h6 : env.nav.loadOk = false) :
    ∃ e : ErrResp,
      analyzeHandler env (some rawUrl)
          = (.serverError e, [Ev.created, Ev.closed])
        ∧ substrOf (normalizeUrl rawUrl) e.technicalDetails = true := by
  refine ⟨classifyError (navFailMessage (normalizeUrl rawUrl)), ?_, ?_⟩
  · unfold analyzeHandler
    rw [h1, h2, h3]
    simp [navigate, tryGoto, h4, h5, h6]
  · have htd : (classifyError (navFailMessage (normalizeUrl rawUrl))).technicalDetails
        = navFailMessage (normalizeUrl rawUrl) := by
      unfold classifyError
      split_ifs <;> rfl
    rw [htd]
    unfold substrOf navFailMessage
    rw [hasSeg_iff]
    refine ⟨"Unable to load ".data,
      (". The site may be blocking automated access, experiencing issues, or taking too long to respond.").data, ?_⟩
    rw [strData_append, strData_append]

/-- Witness for C3 at a concrete environment and URL. -/
theorem analyzeHandler_navigation_failed_witness :
    ∃ e : ErrResp,
      analyzeHandler navAllFailEnv (some "example.com")
          = (.serverError e, [Ev.created, Ev.closed])
        ∧ substrOf (normalizeUrl "example.com") e.technicalDetails = true :=
  analyzeHandler_navigation_failed navAllFailEnv "example.com" rfl rfl rfl rfl rfl rfl

/-- C4 (code bug): the URL normalizer does not force the secure scheme on
an input that parses with a non-special scheme — the WHATWG protocol setter
silently ignores the assignment, so `mailto:user@example.com` is returned
unchanged and the result does not begin with `https://`, although the code
plainly intends `parsed.protocol = "https:"` to force the scheme. -/
theorem normalizeUrl_mailto_counterexample :
    normalizeUrl "mailto:user@example.com" = "mailto:user@example.com"
      ∧ beginsWith "https://" (normalizeUrl "mailto:user@example.com") = false := by
  decide

/-- C5: the all-absent SEO signal with a header-less, footer-less layout
scores exactly 20 with exactly 7 issues listed. -/
theorem calculateSEOScore_boundary :
    (calculateSEOScore ⟨none, 0, none, 0, 0, none, 0, none, ⟨none, none, none⟩⟩
        ⟨false, false, false, false, false, 0, 0, 0, 0, 0, 0, 0⟩).score = 20
      ∧ (calculateSEOScore ⟨none, 0, none, 0, 0, none, 0, none, ⟨none, none, none⟩⟩
          ⟨false, false, false, false, false, 0, 0, 0, 0, 0, 0, 0⟩).issues.length = 7 := by
  decide

/-- C6: for every SEO and layout signal, the returned score lies in
`[0, 100]`: the clamp keeps it nonnegative and the deductions (including
the capped image-alt penalty) never raise it above 100. -/
theorem calculateSEOScore_in_range (seo : SEOSignal) (layout : LayoutSignal) :
    0 ≤ (calculateSEOScore seo layout).score
      ∧ (calculateSEOScore seo layout).score ≤ 100 := by
  have h := sum_fst_nonneg _ (seoChecks_pos seo layout)
  rw [calculateSEOScore_eq]
  dsimp only
  omega

/-- C7: the scoring is a linear deduction model — the pre-clamp score is
100 minus the sum of the applied deductions, the issue list is exactly the
applied deductions' messages in the fixed check order, and the issue list
is empty exactly when the score is 100. -/
theorem calculateSEOScore_linear (seo : SEOSignal) (layout : LayoutSignal) :
    (calculateSEOScore seo layout).score
        = max (100 - ((seoChecks seo layout).map Prod.fst).sum) 0
      ∧ (calculateSEOScore seo layout).issues = (seoChecks seo layout).map Prod.snd
      ∧ ((calculateSEOScore seo layout).issues = []
          ↔ (calculateSEOScore seo layout).score = 100) := by
  have hpos := seoChecks_pos seo layout
  have hnn := sum_fst_nonneg _ hpos
  have hzero := sum_pos_list_eq_nil _ hpos
  rw [calculateSEOScore_eq]
  refine ⟨rfl, rfl, ?_⟩
  dsimp only
  constructor
  · intro h
    have hc : seoChecks seo layout = [] := List.map_eq_nil_iff.mp h
    rw [hc]
    simp
  · intro h
    have hs : ((seoChecks seo layout).map Prod.fst).sum = 0 := by omega
    rw [hzero.mp hs]
    simp

/-- C8: the accessibility checker reports the skipped-heading issue exactly
when some consecutive pair in the ordered heading-level sequence increases
by more than one; in particular `[1, 2, 4]` is reported, `[1, 2, 3]` is
not, and level decreases alone can never satisfy the increase condition. -/
theorem checkAccessibility_skipped_heading :
    (∀ doc : DocModel,
      ("Skipped heading levels detected" ∈ checkAccessibility doc
        ↔ ∃ l1 a b l2, doc.headingLevels = l1 ++ a :: b :: l2 ∧ a + 1 < b))
    ∧ "Skipped heading levels detected" ∈ checkAccessibility ⟨none, 0, 0, [1, 2, 4]⟩
    ∧ (checkAccessibility ⟨none, 0, 0, [1, 2, 3]⟩).count
        "Skipped heading levels detected" = 0 := by
  refine ⟨?_, by decide, by decide⟩
  intro doc
  rw [checkAccessibility_eq, ← hasSkippedHeading_iff]
  have h1 : ("Skipped heading levels detected" : String)
      ≠ "Missing lang attribute on <html>" := by decide
  have h2 : ("Skipped heading levels detected" : String)
      ≠ toString doc.imgWithoutAlt ++ " images missing alt text" :=
    Ne.symm (imgMsg_ne doc.imgWithoutAlt _ (by decide))
  have h3 : ("Skipped heading levels detected" : String)
      ≠ "Links without href attribute" := by decide
  split_ifs <;> simp_all

/-- C9: the technology detector's output never lists a name twice, and when
some script source URL contains the path segment `_next/static/`, the
output lists `Next.js` exactly once. -/
theorem detectTechStack_dedup (generator : Option String) (scripts : List String)
    (html : String) :
    (detectTechStack generator scripts html).Nodup
      ∧ ((∃ s ∈ scripts, substrOf "_next/static/" s = true) →
          (detectTechStack generator scripts html).count "Next.js" = 1) := by
  have hnodup : (detectTechStack generator scripts html).Nodup := by
    unfold detectTechStack
    exact setDedup_nodup _
  refine ⟨hnodup, ?_⟩
  rintro ⟨s, hs, hsub⟩
  have hseg := scriptString_next_seg scripts s hs hsub
  have hmem : "Next.js" ∈ detectTechStack generator scripts html := by
    unfold detectTechStack
    rw [mem_setDedup]
    simp [hseg]
  exact List.count_eq_one_of_mem hnodup hmem

/-- Witness for C9 at a concrete script URL list. -/
theorem detectTechStack_dedup_witness :
    (detectTechStack none ["https://example.com/_next/static/chunks/main.js"]
      "").count "Next.js" = 1 :=
  (detectTechStack_dedup none ["https://example.com/_next/static/chunks/main.js"]
    "").2 ⟨"https://example.com/_next/static/chunks/main.js", by decide, by decide⟩

/-- C10: the accessibility checker returns the concatenation of four
optional singleton entries in the fixed check order (root-language, the
aggregated image-alt count, anchors without href, skipped headings), hence
at most four issues, each category contributing at most one entry, in a
fixed order. -/
theorem checkAccessibility_fixed_shape (doc : DocModel) :
    checkAccessibility doc
        = (if langMissing doc.htmlLang then
             ["Missing lang attribute on <html>"] else [])
          ++ (if doc.imgWithoutAlt > 0 then
                [toString doc.imgWithoutAlt ++ " images missing alt text"] else [])
          ++ (if doc.linksWithoutHref > 0 then
                ["Links without href attribute"] else [])
          ++ (if hasSkippedHeading doc.headingLevels then
                ["Skipped heading levels detected"] else [])
      ∧ (checkAccessibility doc).length ≤ 4
      ∧ List.Sublist (checkAccessibility doc)
          ["Missing lang attribute on <html>",
           toString doc.imgWithoutAlt ++ " images missing alt text",
           "Links without href attribute",
           "Skipped heading levels detected"] := by
  have heq := checkAccessibility_eq doc
  refine ⟨heq, ?_, ?_⟩
  · rw [heq]
    split_ifs <;> simp
  · rw [heq]
    split_ifs <;>
      · repeat first
          | exact List.nil_sublist _
          | apply List.Sublist.cons₂
          | apply List.Sublist.cons

end SiteScanner
